import Mathlib

/-!
Verification of the client-side dashboard of the Hospital Bed and Medicine
Availability tracker.

The development shallowly embeds the data model and the pure derivation logic
of the three views (hospital dashboard, medicine stock, alerts):

* availability classification (`getAvailabilityStatus`), with an explicit
  model `JSNum` of the JavaScript number line restricted to the values that
  can arise here (NaN, +∞, and finite values, the latter modelled exactly
  over `ℚ`);
* the hospital text filter (`filterHospitals`), with strings as `List Char`
  and case folding by `Char.toLower`;
* the medicine pagination (`totalPages`, `currentMedicines`, `nextPage`,
  `prevPage`, and the page reset effect);
* the alerts sidebar derivation (`recentAlertsRun`), where the JavaScript
  `Array.prototype.sort` both returns and mutates the receiver; the model
  therefore returns the derived list together with the post-run contents of
  the raw array;
* the recency formatter (`formatTime`) over integer millisecond timestamps;
* the hospital fetch transition (`fetchHospitalsStep`) as a step function on
  the view state, fed by an abstract fetch outcome;
* the medicine badge lookup tables (`getAvailabilityColor`,
  `getAvailabilityText`).
-/

namespace Tracker

/-! ### A model of the JavaScript numbers reachable by the percentage formula

`(available / total) * 100` with natural-number inputs can only produce a
finite non-negative value, `NaN` (from `0 / 0`), or `+Infinity` (from
`a / 0` with `a > 0`).  Finite values are modelled exactly over `ℚ`. -/

inductive JSNum where
  | nan : JSNum
  | posInf : JSNum
  | fin : ℚ → JSNum
deriving DecidableEq

/-- JavaScript division `a / t` for natural-number operands. -/
def jsDivNat (a t : ℕ) : JSNum :=
  if t = 0 then (if a = 0 then .nan else .posInf) else .fin ((a : ℚ) / (t : ℚ))

/-- JavaScript multiplication by the positive literal `100`. -/
def jsMul100 : JSNum → JSNum
  | .nan => .nan
  | .posInf => .posInf
  | .fin q => .fin (q * 100)

/-- JavaScript comparison `x >= c` against a finite literal: `NaN >= c` is
false, `Infinity >= c` is true. -/
def jsGe : JSNum → ℚ → Bool
  | .nan, _ => false
  | .posInf, _ => true
  | .fin q, c => decide (c ≤ q)

/-- The record returned by `getAvailabilityStatus` in `Dashboard.jsx`. -/
structure AvailabilityStatus where
  status : String
  color : String
  text : String
deriving DecidableEq

/-- The function `getAvailabilityStatus` from `Dashboard.jsx`:
`percentage = (available / total) * 100`, then `>= 30` yields good,
`>= 15` yields moderate, otherwise critical. -/
def getAvailabilityStatus (available total : ℕ) : AvailabilityStatus :=
  let percentage := jsMul100 (jsDivNat available total)
  if jsGe percentage 30 then ⟨"good", "bg-green-500", "Good Availability"⟩
  else if jsGe percentage 15 then ⟨"moderate", "bg-yellow-500", "Moderate Availability"⟩
  else ⟨"critical", "bg-red-500", "Critical Shortage"⟩

/-! ### Hospitals and the dashboard text filter -/

/-- A hospital record as consumed by `Dashboard.jsx`.  Text fields are
`List Char` so that case folding and substring containment are transparent. -/
structure Hospital where
  id : ℕ
  name : List Char
  district : List Char
  contact : List Char
  address : List Char
  totalBeds : ℕ
  availableBeds : ℕ
  icuBeds : ℕ
  availableIcu : ℕ
deriving DecidableEq

/-- Case folding as in `String.prototype.toLowerCase`, character by character. -/
def toLowerStr (s : List Char) : List Char := s.map Char.toLower

/-- The predicate of the dashboard filter effect:
`hospital.name.toLowerCase().includes(searchTerm.toLowerCase()) ||
 hospital.district.toLowerCase().includes(searchTerm.toLowerCase())`. -/
def hospitalMatches (s : List Char) (h : Hospital) : Bool :=
  decide (toLowerStr s <:+: toLowerStr h.name) ||
    decide (toLowerStr s <:+: toLowerStr h.district)

/-- The dashboard filter effect of `Dashboard.jsx`: the empty search term
keeps the collection, otherwise `hospitals.filter(...)`. -/
def filterHospitals (s : List Char) (hs : List Hospital) : List Hospital :=
  if s = [] then hs else hs.filter (hospitalMatches s)

/-! ### The hospital view fetch transition -/

/-- The per-view state touched by `fetchHospitals` in `Dashboard.jsx`. -/
structure HospitalViewState where
  hospitals : List Hospital
  filteredHospitals : List Hospital
  loading : Bool
  error : Option String
deriving DecidableEq

/-- The outcome of one `fetch` of the hospitals resource: either the promise
rejects (network failure), or a JSON payload `{success, data, error}`
arrives. -/
inductive FetchResult where
  | networkError : FetchResult
  | response (success : Bool) (data : List Hospital) (error : Option String) : FetchResult
deriving DecidableEq

/-- JavaScript `e || d` for an optional string `e`: `null`/`undefined` and
the empty string are falsy. -/
def jsOrElse (e : Option String) (d : String) : String :=
  match e with
  | none => d
  | some s => if s = "" then d else s

/-- The fallback message of the `success: false` branch of `fetchHospitals`. -/
def fetchFailMsg : String := "Failed to fetch hospital data"

/-- The message of the `catch` branch of `fetchHospitals`. -/
def connectFailMsg : String :=
  "Failed to connect to server. Please ensure the backend is running."

/-- One run of `fetchHospitals` from `Dashboard.jsx`: set loading, clear the
error, then branch on the outcome; `finally` clears loading. -/
def fetchHospitalsStep (st : HospitalViewState) (r : FetchResult) : HospitalViewState :=
  let st1 : HospitalViewState := { st with loading := true, error := none }
  let st2 : HospitalViewState :=
    match r with
    | .response true data _ => { st1 with hospitals := data, filteredHospitals := data }
    | .response false _ e => { st1 with error := some (jsOrElse e fetchFailMsg) }
    | .networkError => { st1 with error := some connectFailMsg }
  { st2 with loading := false }

/-- A fetch outcome that the `catch`/`success:false` branches classify as a
failure. -/
def FetchResult.isFailure : FetchResult → Bool
  | .networkError => true
  | .response s _ _ => !s

/-! ### Medicines, badges and pagination -/

/-- A medicine record as consumed by the medicine stock view. -/
structure Medicine where
  id : ℕ
  name : String
  manufacturer : String
  category : String
  availability : String
  warning : Option String
  recallFlag : Bool
deriving DecidableEq

/-- The function `getAvailabilityColor` from the medicine stock view (a `switch` with a
`default` arm). -/
def getAvailabilityColor (availability : String) : String :=
  if availability = "high" then "bg-green-500"
  else if availability = "moderate" then "bg-yellow-500"
  else if availability = "low" then "bg-red-500"
  else "bg-gray-500"

/-- The function `getAvailabilityText` from the medicine stock view. -/
def getAvailabilityText (availability : String) : String :=
  if availability = "high" then "High Availability"
  else if availability = "moderate" then "Moderate Availability"
  else if availability = "low" then "Low Availability"
  else "Unknown"

/-- The constant `itemsPerPage = 6` of the medicine stock view. -/
def itemsPerPage : ℕ := 6

/-- The page count `Math.ceil(filteredMedicines.length / itemsPerPage)`. -/
def totalPages (n : ℕ) : ℕ := ⌈(n : ℚ) / (itemsPerPage : ℚ)⌉₊

/-- The slice `Array.prototype.slice(start, stop)` for in-range indices. -/
def jsSlice (l : List Medicine) (start stop : ℕ) : List Medicine :=
  (l.take stop).drop start

/-- The view slice `currentMedicines = filteredMedicines.slice(startIndex, endIndex)` with
`startIndex = (currentPage - 1) * itemsPerPage` and
`endIndex = startIndex + itemsPerPage`. -/
def currentMedicines (l : List Medicine) (page : ℕ) : List Medicine :=
  jsSlice l ((page - 1) * itemsPerPage) ((page - 1) * itemsPerPage + itemsPerPage)

/-- The Next button handler: `setCurrentPage(prev => Math.min(prev + 1, totalPages))`. -/
def nextPage (page total : ℕ) : ℕ := min (page + 1) total

/-- The Previous button handler: `setCurrentPage(prev => Math.max(prev - 1, 1))`. -/
def prevPage (page : ℕ) : ℕ := max (page - 1) 1

/-- The effect `useEffect(() => setCurrentPage(1), [filteredMedicines])`:
the page after any identity change of the filtered collection. -/
def pageAfterFilterChange : ℕ := 1

/-! ### Alerts: sidebar derivation and recency formatting -/

/-- An alert record as consumed by the alerts view; `timestamp` is the
instant in epoch milliseconds (the value of `new Date(alert.timestamp)`). -/
structure Alert where
  id : ℕ
  type : String
  district : String
  hospital : String
  severity : String
  message : String
  timestamp : ℤ
deriving DecidableEq

/-- The order imposed by the comparator
`(a, b) => new Date(b.timestamp) - new Date(a.timestamp)`:
`a` may precede `b` exactly when `b.timestamp ≤ a.timestamp`. -/
def tsGe (a b : Alert) : Prop := b.timestamp ≤ a.timestamp

instance : DecidableRel tsGe := fun a b =>
  inferInstanceAs (Decidable (b.timestamp ≤ a.timestamp))

instance : IsTotal Alert tsGe := ⟨fun a b => le_total b.timestamp a.timestamp⟩

instance : IsTrans Alert tsGe := ⟨fun _ _ _ h1 h2 => le_trans h2 h1⟩

/-- The stable descending-timestamp sort performed by
`alerts.sort((a, b) => new Date(b.timestamp) - new Date(a.timestamp))`. -/
def sortByTimestampDesc (l : List Alert) : List Alert := List.insertionSort tsGe l

/-- One evaluation of
`const recentAlerts = alerts.sort((a, b) => ...).slice(0, 5)`.
`Array.prototype.sort` sorts the receiver in place and returns the same
array, so the result is the pair (derived top-5 list, contents of the raw
`alerts` array after the derivation ran). -/
def recentAlertsRun (alerts : List Alert) : List Alert × List Alert :=
  ((sortByTimestampDesc alerts).take 5, sortByTimestampDesc alerts)

/-- The derived "Recent Alerts" sidebar list. -/
def recentAlerts (alerts : List Alert) : List Alert :=
  (recentAlertsRun alerts).1

/-- The function `formatTime` from the alerts view, over millisecond instants;
`Math.floor` of an exact quotient is flooring division. -/
def formatTime (timestamp now : ℤ) : String :=
  let diffMs := now - timestamp
  let diffMins := Int.fdiv diffMs 60000
  let diffHours := Int.fdiv diffMs 3600000
  let diffDays := Int.fdiv diffMs 86400000
  if diffMins < 60 then toString diffMins ++ " minutes ago"
  else if diffHours < 24 then toString diffHours ++ " hours ago"
  else toString diffDays ++ " days ago"

/-- A concrete hospital record for the filter witnesses. -/
def sampleHospital : Hospital :=
  ⟨1, ['C', 'i', 't', 'y'], ['M', 'u', 'm', 'b', 'a', 'i'], [], [], 100, 40, 10, 4⟩

/-- An alert with the older of two timestamps. -/
def alertOlder : Alert := ⟨1, "bed", "Mumbai", "City General Hospital", "critical", "m1", 0⟩

/-- An alert with the newer of two timestamps. -/
def alertNewer : Alert := ⟨2, "bed", "Delhi", "Regional Medical Center", "critical", "m2", 1⟩

/-- A concrete medicine record for the pagination witness. -/
def sampleMedicine : Medicine :=
  ⟨1, "Paracetamol 500mg", "ABC Pharmaceuticals", "Analgesic", "high", none, false⟩

/-! ## Theorems -/

/-- For `total ≠ 0` the status component follows the percentage thresholds
of the source, with the percentage computed exactly. -/
theorem getAvailabilityStatus_status (a t : ℕ) (ht : t ≠ 0) :
    (getAvailabilityStatus a t).status =
      if (30 : ℚ) ≤ (a : ℚ) / (t : ℚ) * 100 then "good"
      else if (15 : ℚ) ≤ (a : ℚ) / (t : ℚ) * 100 then "moderate"
      else "critical" := by
  simp only [getAvailabilityStatus, jsDivNat, ht, if_false, ite_false, jsMul100, jsGe,
    decide_eq_true_eq]
  split_ifs <;> rfl

/-- Claim C1: for every hospital with `totalBeds > 0`,
`getAvailabilityStatus` classifies by the ratio `r = availableBeds/totalBeds`:
`r ≥ 0.30` yields "good", `0.15 ≤ r < 0.30` yields "moderate", and
`r < 0.15` yields "critical"; the boundary ratios map to the higher tier. -/
theorem availability_ratio_classification (a t : ℕ) (ht : 0 < t) :
    ((3 : ℚ) / 10 ≤ (a : ℚ) / (t : ℚ) → (getAvailabilityStatus a t).status = "good") ∧
    ((3 : ℚ) / 20 ≤ (a : ℚ) / (t : ℚ) → (a : ℚ) / (t : ℚ) < 3 / 10 →
      (getAvailabilityStatus a t).status = "moderate") ∧
    ((a : ℚ) / (t : ℚ) < 3 / 20 → (getAvailabilityStatus a t).status = "critical") := by
  rw [getAvailabilityStatus_status a t (Nat.pos_iff_ne_zero.mp ht)]
  refine ⟨?_, ?_, ?_⟩
  · intro h
    have h30 : (30 : ℚ) ≤ (a : ℚ) / (t : ℚ) * 100 := by linarith
    rw [if_pos h30]
  · intro h hlt
    have h30 : ¬ (30 : ℚ) ≤ (a : ℚ) / (t : ℚ) * 100 := by intro hc; linarith
    have h15 : (15 : ℚ) ≤ (a : ℚ) / (t : ℚ) * 100 := by linarith
    rw [if_neg h30, if_pos h15]
  · intro h
    have h30 : ¬ (30 : ℚ) ≤ (a : ℚ) / (t : ℚ) * 100 := by intro hc; linarith
    have h15 : ¬ (15 : ℚ) ≤ (a : ℚ) / (t : ℚ) * 100 := by intro hc; linarith
    rw [if_neg h30, if_neg h15]

/-- Witness for claim C1 at the spec scenario `availableBeds = 40`,
`totalBeds = 100`. -/
theorem availability_ratio_witness :
    (getAvailabilityStatus 40 100).status = "good" :=
  (availability_ratio_classification 40 100 (by decide)).1 (by norm_num)

/-- Claim C9: `getAvailabilityStatus` is total when `totalBeds = 0`:
`0 / 0` gives NaN, which fails both threshold comparisons, so the status is
"critical"; `a / 0` with `a > 0` gives `+∞`, which passes the `≥ 30` test,
so the status is "good". -/
theorem availability_total_zero_behavior :
    (getAvailabilityStatus 0 0).status = "critical" ∧
    ∀ a : ℕ, 0 < a → (getAvailabilityStatus a 0).status = "good" := by
  constructor
  · rfl
  · intro a ha
    have ha' : a ≠ 0 := Nat.pos_iff_ne_zero.mp ha
    simp [getAvailabilityStatus, jsDivNat, ha', jsMul100, jsGe]

/-- Witness for claim C9 at `availableBeds = 5`, `totalBeds = 0`. -/
theorem availability_total_zero_witness :
    (getAvailabilityStatus 0 0).status = "critical" ∧
    (getAvailabilityStatus 5 0).status = "good" :=
  ⟨availability_total_zero_behavior.1, availability_total_zero_behavior.2 5 (by decide)⟩

/-- Claim C10: for any availability value outside {"high", "moderate",
"low"}, the badge lookups fall back to their defaults. -/
theorem badge_lookup_default (s : String) (h1 : s ≠ "high") (h2 : s ≠ "moderate")
    (h3 : s ≠ "low") :
    getAvailabilityColor s = "bg-gray-500" ∧ getAvailabilityText s = "Unknown" := by
  constructor <;> simp [getAvailabilityColor, getAvailabilityText, h1, h2, h3]

/-- Witness for claim C10 at the out-of-enumeration value "expired". -/
theorem badge_lookup_default_witness :
    getAvailabilityColor "expired" = "bg-gray-500" ∧
    getAvailabilityText "expired" = "Unknown" :=
  badge_lookup_default "expired" (by decide) (by decide) (by decide)

/-- Claim C5: the hospital view's filtered collection contains exactly those
hospitals whose name or district contains the search term as a
case-insensitive substring. -/
theorem hospital_filter_membership (s : List Char) (hs : List Hospital) (h : Hospital) :
    h ∈ filterHospitals s hs ↔
      h ∈ hs ∧
        (toLowerStr s <:+: toLowerStr h.name ∨ toLowerStr s <:+: toLowerStr h.district) := by
  by_cases hse : s = []
  · subst hse
    simp [filterHospitals, toLowerStr]
  · rw [filterHospitals, if_neg hse, List.mem_filter]
    simp [hospitalMatches]

/-- Claim C6: the hospital text filter is idempotent, and filtering with the
empty term returns the collection unchanged, in original order. -/
theorem hospital_filter_algebra (s : List Char) (hs : List Hospital) :
    filterHospitals s (filterHospitals s hs) = filterHospitals s hs ∧
    filterHospitals [] hs = hs := by
  refine ⟨?_, by simp [filterHospitals]⟩
  by_cases hse : s = []
  · simp [filterHospitals, hse]
  · simp [filterHospitals, hse, List.filter_filter, Bool.and_self]

/-- Claim C8: when a hospital-view fetch fails — network failure or a
well-formed response with `success: false` — the error state becomes a
non-null message and the previously fetched raw and filtered collections are
left unchanged. -/
theorem hospital_fetch_failure (st : HospitalViewState) (r : FetchResult)
    (h : r.isFailure = true) :
    (fetchHospitalsStep st r).error ≠ none ∧
    (fetchHospitalsStep st r).hospitals = st.hospitals ∧
    (fetchHospitalsStep st r).filteredHospitals = st.filteredHospitals := by
  cases r with
  | networkError => simp [fetchHospitalsStep]
  | response s data e =>
    cases s with
    | false => simp [fetchHospitalsStep]
    | true => simp [FetchResult.isFailure] at h

/-- Witness for claim C8 at the empty initial state and a network failure. -/
theorem hospital_fetch_failure_witness :
    (fetchHospitalsStep ⟨[], [], false, none⟩ FetchResult.networkError).error ≠ none ∧
    (fetchHospitalsStep ⟨[], [], false, none⟩ FetchResult.networkError).hospitals = [] ∧
    (fetchHospitalsStep ⟨[], [], false, none⟩ FetchResult.networkError).filteredHospitals
      = [] :=
  hospital_fetch_failure ⟨[], [], false, none⟩ FetchResult.networkError (by decide)

/-- Witness for claim C5 at the empty search term and a one-element
collection. -/
theorem hospital_filter_membership_witness :
    sampleHospital ∈ filterHospitals [] [sampleHospital] ↔
      sampleHospital ∈ [sampleHospital] ∧
        (toLowerStr [] <:+: toLowerStr sampleHospital.name ∨
          toLowerStr [] <:+: toLowerStr sampleHospital.district) :=
  hospital_filter_membership [] [sampleHospital] sampleHospital

/-- Witness for claim C6 at a concrete search term and collection. -/
theorem hospital_filter_algebra_witness :
    filterHospitals ['m'] (filterHospitals ['m'] [sampleHospital])
        = filterHospitals ['m'] [sampleHospital] ∧
      filterHospitals [] [sampleHospital] = [sampleHospital] :=
  hospital_filter_algebra ['m'] [sampleHospital]

/-- The body of `formatTime` with its local bindings expanded. -/
theorem formatTime_eq (ts now : ℤ) :
    formatTime ts now =
      if Int.fdiv (now - ts) 60000 < 60 then
        toString (Int.fdiv (now - ts) 60000) ++ " minutes ago"
      else if Int.fdiv (now - ts) 3600000 < 24 then
        toString (Int.fdiv (now - ts) 3600000) ++ " hours ago"
      else toString (Int.fdiv (now - ts) 86400000) ++ " days ago" := rfl

/-- Rendering a cast natural number as an integer prints the same digits. -/
theorem toString_intNatCast (n : ℕ) : toString ((n : ℕ) : ℤ) = toString n := rfl

/-- Claim C4: for a non-negative elapsed time, `formatTime` renders the
elapsed whole minutes when they are below 60, else the elapsed whole hours
when they are below 24, else the elapsed whole days; every count is the
elapsed time divided by the unit, truncating toward zero. -/
theorem format_time_buckets (ts now : ℤ) (h : 0 ≤ now - ts) :
    (((now - ts).toNat / 60000 < 60) →
        formatTime ts now = toString ((now - ts).toNat / 60000) ++ " minutes ago") ∧
    ((60 ≤ (now - ts).toNat / 60000) → ((now - ts).toNat / 3600000 < 24) →
        formatTime ts now = toString ((now - ts).toNat / 3600000) ++ " hours ago") ∧
    ((24 ≤ (now - ts).toNat / 3600000) →
        formatTime ts now = toString ((now - ts).toNat / 86400000) ++ " days ago") := by
  obtain ⟨e, he⟩ : ∃ e : ℕ, now - ts = (e : ℤ) := ⟨(now - ts).toNat, by omega⟩
  have hse : (now - ts).toNat = e := by omega
  have b1 : Int.fdiv (e : ℤ) (60000 : ℤ) = ((e / 60000 : ℕ) : ℤ) := by
    exact_mod_cast (Int.ofNat_fdiv e 60000).symm
  have b2 : Int.fdiv (e : ℤ) (3600000 : ℤ) = ((e / 3600000 : ℕ) : ℤ) := by
    exact_mod_cast (Int.ofNat_fdiv e 3600000).symm
  have b3 : Int.fdiv (e : ℤ) (86400000 : ℤ) = ((e / 86400000 : ℕ) : ℤ) := by
    exact_mod_cast (Int.ofNat_fdiv e 86400000).symm
  rw [formatTime_eq, hse, he, b1, b2, b3]
  refine ⟨?_, ?_, ?_⟩
  · intro h1
    rw [if_pos (by exact_mod_cast h1), toString_intNatCast]
  · intro h1 h2
    have hm : ¬ ((e / 60000 : ℕ) : ℤ) < 60 := by exact_mod_cast not_lt.2 h1
    rw [if_neg hm, if_pos (by exact_mod_cast h2), toString_intNatCast]
  · intro h1
    have hm : ¬ ((e / 60000 : ℕ) : ℤ) < 60 := by
      have hn : ¬ e / 60000 < 60 := by omega
      exact_mod_cast hn
    have hh : ¬ ((e / 3600000 : ℕ) : ℤ) < 24 := by exact_mod_cast not_lt.2 h1
    rw [if_neg hm, if_neg hh, toString_intNatCast]

/-- Witness for claim C4 at an elapsed time of 45 minutes. -/
theorem format_time_witness :
    formatTime 0 2700000 = toString (((2700000 : ℤ) - 0).toNat / 60000) ++ " minutes ago" :=
  (format_time_buckets 0 2700000 (by decide)).1 (by decide)

/-- Claim C3: the derived "Recent Alerts" sidebar list is sorted by
timestamp in descending order, has length `min 5 |C|`, and consists of the
most recent alerts of `C`: some permutation of `C` splits into the sidebar
list followed by a remainder whose timestamps are all at most those shown.
The derivation reads only the alerts collection, so it does not depend on
the active type filter. -/
theorem recent_alerts_spec (C : List Alert) :
    (recentAlerts C).Sorted tsGe ∧
    (recentAlerts C).length = min 5 C.length ∧
    ∃ rest : List Alert,
      (recentAlerts C ++ rest).Perm C ∧
      ∀ x ∈ recentAlerts C, ∀ y ∈ rest, y.timestamp ≤ x.timestamp := by
  have hsort : (sortByTimestampDesc C).Sorted tsGe := List.sorted_insertionSort tsGe C
  have hperm : (sortByTimestampDesc C).Perm C := List.perm_insertionSort tsGe C
  have htake : recentAlerts C = (sortByTimestampDesc C).take 5 := rfl
  refine ⟨?_, ?_, (sortByTimestampDesc C).drop 5, ?_, ?_⟩
  · rw [htake]
    exact List.Pairwise.sublist (List.take_sublist 5 _) hsort
  · rw [htake, List.length_take, hperm.length_eq]
  · rw [htake, List.take_append_drop]
    exact hperm
  · intro x hx y hy
    have hp : ((sortByTimestampDesc C).take 5 ++ (sortByTimestampDesc C).drop 5).Pairwise
        tsGe := by
      rw [List.take_append_drop]
      exact hsort
    exact (List.pairwise_append.1 hp).2.2 x (htake ▸ hx) y hy

/-- Witness for claim C3 at a one-element alert collection. -/
theorem recent_alerts_witness :
    (recentAlerts [alertOlder]).length = min 5 [alertOlder].length :=
  (recent_alerts_spec [alertOlder]).2.1

/-- Claim C7 is violated by the code: `Array.prototype.sort` sorts the raw
`alerts` array in place, so after the sidebar derivation runs on a
collection whose alerts are not already in descending timestamp order, the
raw collection has been reordered. -/
theorem recent_alerts_mutates_raw :
    (recentAlertsRun [alertOlder, alertNewer]).2 = [alertNewer, alertOlder] ∧
    (recentAlertsRun [alertOlder, alertNewer]).2 ≠ [alertOlder, alertNewer] := by
  decide

/-- The page count `Math.ceil(n / 6)` agrees with the integer formula `(n + 5) / 6`. -/
theorem totalPages_eq (n : ℕ) : totalPages n = (n + 5) / 6 := by
  have h6 : ((itemsPerPage : ℕ) : ℚ) = 6 := by norm_num [itemsPerPage]
  rcases Nat.eq_zero_or_pos n with h0 | hpos
  · subst h0
    simp [totalPages]
  · set m := (n + 5) / 6 with hm
    have h1 : 6 * m ≤ n + 5 := by omega
    have h2 : n ≤ 6 * m := by omega
    have hm1 : 1 ≤ m := by omega
    rw [totalPages, h6, Nat.ceil_eq_iff (by omega : m ≠ 0)]
    have q1 : (6 : ℚ) * (m : ℚ) ≤ (n : ℚ) + 5 := by exact_mod_cast h1
    have q2 : (n : ℚ) ≤ 6 * (m : ℚ) := by exact_mod_cast h2
    constructor
    · rw [lt_div_iff₀ (by norm_num : (0 : ℚ) < 6), Nat.cast_sub hm1, Nat.cast_one]
      linarith
    · rw [div_le_iff₀ (by norm_num : (0 : ℚ) < 6)]
      linarith

/-- Claim C2: with page size 6 and `n` filtered items, the page count is
`ceil(n/6)` (equivalently `(n+5)/6`); page `p` shows exactly the slice at
indices `6(p-1)` through `min(6p, n) - 1`; the last page holds
`n - 6*(pages-1)` items; Previous/Next clamp the page to `[1, pages]` (Next
beyond the last page clamps to the last); and the page resets to 1 when the
filtered collection changes identity. -/
theorem medicine_pagination_spec (l : List Medicine) (p : ℕ) (hp : 1 ≤ p) :
    totalPages l.length = (l.length + 5) / 6 ∧
    (currentMedicines l p).length = min 6 (l.length - 6 * (p - 1)) ∧
    (∀ i, i < 6 → (currentMedicines l p)[i]? = l[6 * (p - 1) + i]?) ∧
    (0 < l.length →
      (currentMedicines l (totalPages l.length)).length
        = l.length - 6 * (totalPages l.length - 1)) ∧
    (p ≤ totalPages l.length →
      1 ≤ nextPage p (totalPages l.length) ∧
      nextPage p (totalPages l.length) ≤ totalPages l.length ∧
      1 ≤ prevPage p ∧ prevPage p ≤ totalPages l.length) ∧
    nextPage (totalPages l.length) (totalPages l.length) = totalPages l.length ∧
    pageAfterFilterChange = 1 := by
  have hlen : ∀ q : ℕ, (currentMedicines l q).length
      = min ((q - 1) * 6 + 6) l.length - (q - 1) * 6 := by
    intro q
    simp only [currentMedicines, jsSlice, itemsPerPage]
    rw [List.length_drop, List.length_take]
  refine ⟨totalPages_eq l.length, ?_, ?_, ?_, ?_, ?_, rfl⟩
  · rw [hlen p]
    omega
  · intro i hi
    rw [show 6 * (p - 1) + i = (p - 1) * 6 + i from by ring]
    simp only [currentMedicines, jsSlice, itemsPerPage]
    rw [List.getElem?_drop,
      List.getElem?_take_of_lt (by omega : (p - 1) * 6 + i < (p - 1) * 6 + 6)]
  · intro hn
    rw [hlen (totalPages l.length), totalPages_eq]
    omega
  · intro hple
    refine ⟨?_, ?_, ?_, ?_⟩ <;> simp only [nextPage, prevPage] <;> omega
  · simp only [nextPage]
    omega

/-- Witness for claim C2 at a one-element collection and page 1. -/
theorem medicine_pagination_witness :
    totalPages ([sampleMedicine].length) = ([sampleMedicine].length + 5) / 6 :=
  (medicine_pagination_spec [sampleMedicine] 1 (by decide)).1

end Tracker
